import Mathlib

/-!
Verification development for the cross-chain privacy-strategies repository.

The definitions below are a shallow embedding of the Solidity contracts
under src/contracts/resolver (PrivacyResolver.sol, PrivacyUtils.sol,
TestEscrowFactory.sol) and of the amount arithmetic exercised by
src/test/resolver/main.spec.ts.  Machine words (uint256, bytes32,
address) are modelled as Nat; Solidity 0.8 checked arithmetic reverts on
overflow rather than wrapping, and every quantity handled here stays far
below 2^256, so plain Nat arithmetic is faithful on the reachable range.
Byte strings (bytes calldata) are lists of Nats.  keccak256 and
abi.encode/decode are EVM primitives external to the contracts; they are
taken as parameters, so every theorem quantifies over them and holds for
any choice of hash/codec.  A reverting call is an Except error: the EVM
rolls back all storage writes of a reverted call, so the caller keeps the
pre-call state.
-/

namespace CCPS

/-- Configuration constant of PrivacyResolver.sol line 62: 5 minutes. -/
def MIN_COMMIT_DELAY : Nat := 5 * 60

/-- Configuration constant of PrivacyResolver.sol line 63: 1 hour. -/
def MAX_COMMIT_DELAY : Nat := 60 * 60

/-- Configuration constant of PrivacyResolver.sol line 64: 30 seconds. -/
def MIN_EXECUTION_DELAY : Nat := 30

/-- Configuration constant of PrivacyResolver.sol line 65: 10 minutes. -/
def MAX_EXECUTION_DELAY : Nat := 10 * 60

/-- OrderCommitment struct, PrivacyResolver.sol lines 35-42. -/
structure OrderCommitment where
  commitHash : Nat
  revealAfter : Nat
  expireAfter : Nat
  committer : Nat
  revealed : Bool
  executed : Bool
deriving DecidableEq, Repr

/-- The all-zero commitment: the default value of a Solidity mapping slot. -/
def emptyCommitment : OrderCommitment :=
  { commitHash := 0, revealAfter := 0, expireAfter := 0, committer := 0,
    revealed := false, executed := false }

/-- IOrderMixin.Order: the limit-order struct referenced by the resolver. -/
structure Order where
  salt : Nat
  maker : Nat
  receiver : Nat
  makerAsset : Nat
  takerAsset : Nat
  makingAmount : Nat
  takingAmount : Nat
  makerTraits : Nat
deriving DecidableEq, Repr

/-- IBaseEscrow.Immutables: the fixed parameter tuple of one escrow. -/
structure Immutables where
  orderHash : Nat
  hashlock : Nat
  maker : Nat
  taker : Nat
  token : Nat
  amount : Nat
  safetyDeposit : Nat
  timelocks : Nat
deriving DecidableEq, Repr

/-- DelayedOrder struct, PrivacyResolver.sol lines 45-54. -/
structure DelayedOrder where
  immutables : Immutables
  order : Order
  r : Nat
  vs : Nat
  amount : Nat
  takerTraits : Nat
  args : List Nat
  executeAfter : Nat
deriving DecidableEq, Repr

/-- The all-zero delayed order: the default value of a Solidity mapping slot. -/
def emptyDelayedOrder : DelayedOrder :=
  { immutables := { orderHash := 0, hashlock := 0, maker := 0, taker := 0,
                    token := 0, amount := 0, safetyDeposit := 0, timelocks := 0 },
    order := { salt := 0, maker := 0, receiver := 0, makerAsset := 0,
               takerAsset := 0, makingAmount := 0, takingAmount := 0, makerTraits := 0 },
    r := 0, vs := 0, amount := 0, takerTraits := 0, args := [], executeAfter := 0 }

/-- Result of abi.decode on the packed orderData blob
(PrivacyResolver.sol lines 122-130). -/
structure DecodedOrder where
  immutables : Immutables
  order : Order
  r : Nat
  vs : Nat
  amount : Nat
  takerTraits : Nat
  args : List Nat
deriving DecidableEq, Repr

/-- The EVM primitives the resolver calls into: keccak256 over the two
ABI encodings it uses, abi.decode of the order payload, and the keccak
seed of the fake-volume generator.  The contracts treat these as opaque
functions, so the embedding takes them as parameters. -/
structure EvmPrims where
  commitKeccak : List Nat → Nat → Nat → Nat
  orderKeccak : Order → Nat → Nat → Nat
  decodeOrderData : List Nat → DecodedOrder
  fakeSeed : Nat → Nat → Nat → Nat

/-- Revert reasons of the resolver entry points (PrivacyResolver.sol
lines 29-32, the require of line 82, and the Ownable onlyOwner check). -/
inductive RError where
  | notOwner
  | invalidDelay
  | commitmentNotFound
  | tooEarlyToReveal
  | invalidCommitment
  | executionTooEarly
deriving DecidableEq, Repr

/-- Contract storage of PrivacyResolver (lines 57-59) plus the owner
address inherited from Ownable.  Mappings are total functions with the
zero struct as default. -/
structure ResolverState where
  owner : Nat
  commitments : Nat → OrderCommitment
  delayedOrders : Nat → DelayedOrder
  fakeVolumes : Nat → Nat

/-- Pointwise update of a Solidity mapping. -/
def updMap {α : Type} (m : Nat → α) (k : Nat) (v : α) : Nat → α :=
  fun k2 => if k2 = k then v else m k2

/-- commitOrder, PrivacyResolver.sol lines 78-97: onlyOwner, requires
the reveal delay to lie in [MIN_COMMIT_DELAY, MAX_COMMIT_DELAY], then
unconditionally stores a fresh commitment record at commitHash. -/
def commitOrder (s : ResolverState) (caller now commitHash revealDelay : Nat) :
    Except RError ResolverState :=
  if caller ≠ s.owner then .error .notOwner
  else if ¬ (MIN_COMMIT_DELAY ≤ revealDelay ∧ revealDelay ≤ MAX_COMMIT_DELAY) then
    .error .invalidDelay
  else
    let revealAfter := now + revealDelay
    let expireAfter := revealAfter + MAX_COMMIT_DELAY
    let c : OrderCommitment :=
      { commitHash := commitHash, revealAfter := revealAfter,
        expireAfter := expireAfter, committer := caller,
        revealed := false, executed := false }
    .ok { s with commitments := updMap s.commitments commitHash c }

/-- generateCommitHash, PrivacyResolver.sol lines 274-280:
keccak256(abi.encodePacked(orderData, nonce, committer)). -/
def generateCommitHash (P : EvmPrims) (orderData : List Nat) (nonce committer : Nat) : Nat :=
  P.commitKeccak orderData nonce committer

/-- revealAndScheduleOrder, PrivacyResolver.sol lines 105-149: onlyOwner;
recomputes keccak256(abi.encodePacked(orderData, nonce, msg.sender)),
checks existence, reveal time and the revealed flag, marks the
commitment revealed, decodes the payload and stores a DelayedOrder at
keccak256(abi.encode(order, r, vs)) with
executeAfter = now + executionDelay % MAX_EXECUTION_DELAY + MIN_EXECUTION_DELAY. -/
def revealAndScheduleOrder (P : EvmPrims) (s : ResolverState)
    (caller now : Nat) (orderData : List Nat) (nonce executionDelay : Nat) :
    Except RError ResolverState :=
  if caller ≠ s.owner then .error .notOwner
  else if (s.commitments (P.commitKeccak orderData nonce caller)).commitHash = 0 then
    .error .commitmentNotFound
  else if now < (s.commitments (P.commitKeccak orderData nonce caller)).revealAfter then
    .error .tooEarlyToReveal
  else if (s.commitments (P.commitKeccak orderData nonce caller)).revealed then
    .error .invalidCommitment
  else
    let commitHash := P.commitKeccak orderData nonce caller
    let commitment := s.commitments commitHash
    let d := P.decodeOrderData orderData
    let executeAfter := now + executionDelay % MAX_EXECUTION_DELAY + MIN_EXECUTION_DELAY
    let orderHash := P.orderKeccak d.order d.r d.vs
    let revealedC : OrderCommitment := { commitment with revealed := true }
    let delayed : DelayedOrder :=
      { immutables := d.immutables, order := d.order, r := d.r, vs := d.vs,
        amount := d.amount, takerTraits := d.takerTraits, args := d.args,
        executeAfter := executeAfter }
    .ok { s with
      commitments := updMap s.commitments commitHash revealedC,
      delayedOrders := updMap s.delayedOrders orderHash delayed }

/-- The argument tuple of the deploySrc call made by executeDelayedOrder
(PrivacyResolver.sol lines 165-173); deploySrc itself forwards to the
external limit-order protocol. -/
structure DeploySrcCall where
  immutables : Immutables
  order : Order
  r : Nat
  vs : Nat
  amount : Nat
  takerTraits : Nat
  args : List Nat
deriving DecidableEq, Repr

/-- The fake amount added by the internal helper of PrivacyResolver.sol
lines 184-191: baseAmount * (seed % 180 + 20) / 100. -/
def fakeVolumeAmount (seed baseAmount : Nat) : Nat :=
  baseAmount * (seed % 180 + 20) / 100

/-- executeDelayedOrder, PrivacyResolver.sol lines 155-177: onlyOwner;
requires a stored order (executeAfter ≠ 0) whose executeAfter has
passed, books fake volume on the maker asset, calls this.deploySrc with
exactly the stored fields, and deletes the entry.  The deploySrc call
itself is external; its argument tuple is returned alongside the new
state. -/
def executeDelayedOrder (P : EvmPrims) (s : ResolverState)
    (caller now orderHash : Nat) :
    Except RError (ResolverState × DeploySrcCall) :=
  if caller ≠ s.owner then .error .notOwner
  else if (s.delayedOrders orderHash).executeAfter = 0 then .error .commitmentNotFound
  else if now < (s.delayedOrders orderHash).executeAfter then .error .executionTooEarly
  else
    let delayed := s.delayedOrders orderHash
      let tok := delayed.order.makerAsset
      let fakeAmount := fakeVolumeAmount (P.fakeSeed now tok delayed.amount) delayed.amount
      let s1 := { s with fakeVolumes := updMap s.fakeVolumes tok (s.fakeVolumes tok + fakeAmount) }
      let call : DeploySrcCall :=
        { immutables := delayed.immutables, order := delayed.order, r := delayed.r,
          vs := delayed.vs, amount := delayed.amount, takerTraits := delayed.takerTraits,
          args := delayed.args }
      .ok ({ s1 with delayedOrders := updMap s1.delayedOrders orderHash emptyDelayedOrder }, call)

/-- canReveal, PrivacyResolver.sol lines 263-269. -/
def canReveal (s : ResolverState) (now commitHash : Nat) : Bool :=
  let commitment := s.commitments commitHash
  commitment.commitHash ≠ 0 && commitment.revealAfter ≤ now &&
    !commitment.revealed && now < commitment.expireAfter

/-- EVM revert semantics: the state a caller observes after an external
call, given the pre-call state; a reverted call leaves the pre-call
state in force. -/
def postState (r : Except RError ResolverState) (pre : ResolverState) : ResolverState :=
  match r with
  | .ok s2 => s2
  | .error _ => pre

/-- Whether a call succeeded. -/
def okE {α : Type} (r : Except RError α) : Bool :=
  match r with
  | .ok _ => true
  | .error _ => false

/-! ## PrivacyUtils.sol -/

/-- Constant of PrivacyUtils.sol line 47: up to 300 percent noise. -/
def MAX_NOISE_PERCENTAGE : Nat := 300

/-- Constant of PrivacyUtils.sol line 48: at least 50 percent noise. -/
def MIN_NOISE_PERCENTAGE : Nat := 50

/-- ObfuscatedAmount struct, PrivacyUtils.sol lines 34-39. -/
structure ObfuscatedAmount where
  realAmount : Nat
  displayAmount : Nat
  noiseLevel : Nat
  timestamp : Nat
deriving DecidableEq, Repr

/-- The storage of PrivacyUtils touched by obfuscateAmount: the owner
from Ownable and the per-token obfuscation history (line 43). -/
structure UtilsState where
  owner : Nat
  tokenObfuscation : Nat → List ObfuscatedAmount

/-- The noise percentage picked by obfuscateAmount (PrivacyUtils.sol
line 95): MIN_NOISE_PERCENTAGE + seed % (MAX - MIN). -/
def noisePercentageOf (seed : Nat) : Nat :=
  MIN_NOISE_PERCENTAGE + seed % (MAX_NOISE_PERCENTAGE - MIN_NOISE_PERCENTAGE)

/-- The noise amount of obfuscateAmount (PrivacyUtils.sol line 96):
realAmount * noisePercentage / 100. -/
def noiseAmountOf (realAmount seed : Nat) : Nat :=
  realAmount * noisePercentageOf seed / 100

/-- obfuscateAmount, PrivacyUtils.sol lines 90-115: onlyOwner; derives a
keccak seed from (block.timestamp, token, realAmount, msg.sender), picks
a noise percentage in [MIN_NOISE_PERCENTAGE, MAX_NOISE_PERCENTAGE),
adds or subtracts that fraction of the real amount (falling back to the
noise amount itself when subtraction would go negative), and appends one
record to tokenObfuscation[token].  The keccak is a parameter. -/
def obfuscateAmount (keccakU : Nat → Nat → Nat → Nat → Nat)
    (s : UtilsState) (caller now token realAmount : Nat) :
    Except RError (UtilsState × Nat) :=
  if caller ≠ s.owner then .error .notOwner
  else
    let seed := keccakU now token realAmount caller
    let noisePercentage := noisePercentageOf seed
    let noiseAmount := noiseAmountOf realAmount seed
    let obfuscated :=
      if seed % 2 = 0 then realAmount + noiseAmount
      else if noiseAmount < realAmount then realAmount - noiseAmount else noiseAmount
    let rec1 : ObfuscatedAmount :=
      { realAmount := realAmount, displayAmount := obfuscated,
        noiseLevel := noisePercentage, timestamp := now }
    let hist := updMap s.tokenObfuscation token (s.tokenObfuscation token ++ [rec1])
    .ok ({ s with tokenObfuscation := hist }, obfuscated)

/-! ## TestEscrowFactory.sol -/

/-- The argument tuple TestEscrowFactory forwards to the EscrowFactory
base constructor (TestEscrowFactory.sol lines 16-23). -/
structure EscrowFactoryArgs where
  limitOrderProtocol : Nat
  feeToken : Nat
  accessToken : Nat
  owner : Nat
  rescueDelaySrc : Nat
  rescueDelayDst : Nat
deriving DecidableEq, Repr

/-- TestEscrowFactory constructor, TestEscrowFactory.sol lines 8-24: it
takes six arguments but passes rescueDelayDst for BOTH rescue-delay
slots of the EscrowFactory base constructor. -/
def testEscrowFactoryCtor (limitOrderProtocol feeToken accessToken owner
    rescueDelaySrc rescueDelayDst : Nat) : EscrowFactoryArgs :=
  { limitOrderProtocol := limitOrderProtocol, feeToken := feeToken,
    accessToken := accessToken, owner := owner,
    rescueDelaySrc := rescueDelayDst, rescueDelayDst := rescueDelayDst }

/-! ## Amount arithmetic of src/test/resolver/main.spec.ts -/

/-- makingAmount of the test orders: parseUnits("100", 6)
(main.spec.ts line 536). -/
def testMakingAmount : Nat := 100 * 10 ^ 6

/-- takingAmount of the test orders: parseUnits("99", 6)
(main.spec.ts line 537). -/
def testTakingAmount : Nat := 99 * 10 ^ 6

/-- The 50 percent fill of the multi-fill test:
fillAmount = order.makingAmount / 2 (main.spec.ts line 586). -/
def fill50Amount : Nat := testMakingAmount / 2

/-- The destination-side amount of a fill:
dstAmount = takingAmount * fillAmount / makingAmount with bigint
(truncating) division (main.spec.ts line 701). -/
def dstAmountOf (makingAmount takingAmount fillAmount : Nat) : Nat :=
  takingAmount * fillAmount / makingAmount

/-! ## Spec-modelled escrow ledger

The escrow implementation contracts (EscrowSrc, EscrowDst) and the
limit-order fill engine live in the 1inch cross-chain-swap suite, which
is imported by the contracts under src/ but is itself not part of the
given sources; only its callers (Resolver, PrivacyResolver) and the test
suite are.  The ledger below is modelled from the spec (sections 4.5,
6 and 8): per-chain token balances of user, resolver and escrow, plus
native-coin safety-deposit balances of resolver and escrow. -/

/-- Modelled from the spec: token and safety-deposit balances on the two
chains; the escrow implementation contracts that move them are missing
from src/.  src-prefixed fields are source-chain balances, dst-prefixed
fields destination-chain balances; Tok fields are swap-token units, Nat
fields native-coin units held as safety deposits. -/
structure SwapLedger where
  srcUserTok : Nat
  srcResolverTok : Nat
  srcEscrowTok : Nat
  srcResolverNat : Nat
  srcEscrowNat : Nat
  dstUserTok : Nat
  dstResolverTok : Nat
  dstEscrowTok : Nat
  dstResolverNat : Nat
  dstEscrowNat : Nat
deriving DecidableEq, Repr

/-- Modelled from the spec (4.5 deploySrc, 8 conservation): filling the
order deploys the source escrow, moving fillAmount of the maker asset
from the user into the escrow and the source safety deposit from the
resolver into the escrow. -/
def deploySrcL (L : SwapLedger) (fillAmount sd : Nat) : Option SwapLedger :=
  if fillAmount ≤ L.srcUserTok ∧ sd ≤ L.srcResolverNat then
    some { L with
      srcUserTok := L.srcUserTok - fillAmount,
      srcEscrowTok := L.srcEscrowTok + fillAmount,
      srcResolverNat := L.srcResolverNat - sd,
      srcEscrowNat := L.srcEscrowNat + sd }
  else none

/-- Modelled from the spec (4.5 deployDst): the resolver pre-funds the
destination escrow with the destination amount and its safety deposit. -/
def deployDstL (L : SwapLedger) (dstAmount sd : Nat) : Option SwapLedger :=
  if dstAmount ≤ L.dstResolverTok ∧ sd ≤ L.dstResolverNat then
    some { L with
      dstResolverTok := L.dstResolverTok - dstAmount,
      dstEscrowTok := L.dstEscrowTok + dstAmount,
      dstResolverNat := L.dstResolverNat - sd,
      dstEscrowNat := L.dstEscrowNat + sd }
  else none

/-- Modelled from the spec (4.5 withdraw): once the withdrawal window is
open and the revealed secret matches the hashlock, the destination
escrow pays the swap amount to the user and returns the safety deposit
to the resolver. -/
def withdrawDstL (L : SwapLedger) (dstAmount sd deployedAt wOff cOff now : Nat)
    (secretMatches : Bool) : Option SwapLedger :=
  if secretMatches = true ∧ deployedAt + wOff ≤ now ∧ now < deployedAt + cOff ∧
      dstAmount ≤ L.dstEscrowTok ∧ sd ≤ L.dstEscrowNat then
    some { L with
      dstEscrowTok := L.dstEscrowTok - dstAmount,
      dstUserTok := L.dstUserTok + dstAmount,
      dstEscrowNat := L.dstEscrowNat - sd,
      dstResolverNat := L.dstResolverNat + sd }
  else none

/-- Modelled from the spec (4.5 withdraw): once the source withdrawal
window is open and the secret matches, the source escrow pays the fill
amount to the resolver and returns the safety deposit to the resolver. -/
def withdrawSrcL (L : SwapLedger) (fillAmount sd deployedAt wOff cOff now : Nat)
    (secretMatches : Bool) : Option SwapLedger :=
  if secretMatches = true ∧ deployedAt + wOff ≤ now ∧ now < deployedAt + cOff ∧
      fillAmount ≤ L.srcEscrowTok ∧ sd ≤ L.srcEscrowNat then
    some { L with
      srcEscrowTok := L.srcEscrowTok - fillAmount,
      srcResolverTok := L.srcResolverTok + fillAmount,
      srcEscrowNat := L.srcEscrowNat - sd,
      srcResolverNat := L.srcResolverNat + sd }
  else none

/-- Modelled from the spec (4.5 cancel, 8 cancellation symmetry): after
the destination cancellation timelock, cancelling the destination escrow
returns the pre-funded amount and the safety deposit to the resolver,
their original depositor. -/
def cancelDstL (L : SwapLedger) (dstAmount sd deployedAt cOff now : Nat) :
    Option SwapLedger :=
  if deployedAt + cOff ≤ now ∧ dstAmount ≤ L.dstEscrowTok ∧ sd ≤ L.dstEscrowNat then
    some { L with
      dstEscrowTok := L.dstEscrowTok - dstAmount,
      dstResolverTok := L.dstResolverTok + dstAmount,
      dstEscrowNat := L.dstEscrowNat - sd,
      dstResolverNat := L.dstResolverNat + sd }
  else none

/-- Modelled from the spec (4.5 cancel, 8 cancellation symmetry): after
the source cancellation timelock, cancelling the source escrow returns
the fill amount to the user (the original depositor) and the safety
deposit to the resolver. -/
def cancelSrcL (L : SwapLedger) (fillAmount sd deployedAt cOff now : Nat) :
    Option SwapLedger :=
  if deployedAt + cOff ≤ now ∧ fillAmount ≤ L.srcEscrowTok ∧ sd ≤ L.srcEscrowNat then
    some { L with
      srcEscrowTok := L.srcEscrowTok - fillAmount,
      srcUserTok := L.srcUserTok + fillAmount,
      srcEscrowNat := L.srcEscrowNat - sd,
      srcResolverNat := L.srcResolverNat + sd }
  else none

/-! ## Concrete sample instances (used by witnesses and counterexamples) -/

/-- A computable stand-in for keccak256 over the packed
(orderData, nonce, committer) encoding; any function works for the
universally quantified theorems, this one makes them evaluable. -/
def sampleKeccak (orderData : List Nat) (nonce addr : Nat) : Nat :=
  orderData.foldl (fun a b => a * 1000003 + b + 1) 101 + 7 * nonce + 13 * addr

/-- A computable stand-in for the full primitive bundle. -/
def samplePrims : EvmPrims :=
  { commitKeccak := sampleKeccak,
    orderKeccak := fun o r vs => o.salt + 2 * r + 3 * vs + 11,
    decodeOrderData := fun bytes =>
      { immutables := { orderHash := 1, hashlock := 2, maker := 3, taker := 4,
                        token := 5, amount := 6, safetyDeposit := 7, timelocks := 8 },
        order := { salt := bytes.length, maker := 3, receiver := 0, makerAsset := 5,
                   takerAsset := 9, makingAmount := 100, takingAmount := 99,
                   makerTraits := 0 },
        r := 21, vs := 22, amount := 50, takerTraits := 0, args := bytes },
    fakeSeed := fun a b c => a + b + c }

/-- The resolver state right after deployment: owner address 1, all
mappings empty. -/
def sState0 : ResolverState :=
  { owner := 1, commitments := fun _ => emptyCommitment,
    delayedOrders := fun _ => emptyDelayedOrder, fakeVolumes := fun _ => 0 }

/-- Sample order payload and nonce used by concrete scenarios. -/
def sampleData : List Nat := [1, 2, 3]

/-- The commit hash of sampleData with nonce 7 and committer 1 under the
sample keccak. -/
def hSample : Nat := sampleKeccak sampleData 7 1

/-- State after the owner commits hSample at time 1000 with the minimum
reveal delay of 300 seconds (revealAfter 1300, expireAfter 4900). -/
def sState1 : ResolverState :=
  postState (commitOrder sState0 1 1000 hSample 300) sState0

/-- State after the owner reveals the sampleData commitment at time 1300
with executionDelay 50. -/
def sState2 : ResolverState :=
  postState (revealAndScheduleOrder samplePrims sState1 1 1300 sampleData 7 50) sState1

/-- The PrivacyUtils state right after deployment: owner 1, no
obfuscation records. -/
def uState0 : UtilsState :=
  { owner := 1, tokenObfuscation := fun _ => [] }

/-- The orderHash under which the sampleData reveal stores its
DelayedOrder: keccak256(abi.encode(order, r, vs)) of the decoded
payload, under the sample primitives. -/
def ohSample : Nat :=
  samplePrims.orderKeccak (samplePrims.decodeOrderData sampleData).order
    (samplePrims.decodeOrderData sampleData).r (samplePrims.decodeOrderData sampleData).vs

/-- Result of executing the sample delayed order at time 1380 (its
executeAfter is 1300 + 50 % 600 + 30 = 1380). -/
def execResult : Except RError (ResolverState × DeploySrcCall) :=
  executeDelayedOrder samplePrims sState2 1 1380 ohSample

/-- State after the successful sample execution. -/
def sState3 : ResolverState :=
  match execResult with
  | .ok (s2, _) => s2
  | .error _ => sState2

/-- The deploySrc argument tuple produced by the sample execution. -/
def callSample : DeploySrcCall :=
  match execResult with
  | .ok (_, c) => c
  | .error _ =>
    { immutables := emptyDelayedOrder.immutables, order := emptyDelayedOrder.order,
      r := 0, vs := 0, amount := 0, takerTraits := 0, args := [] }

/-- Written from the spec's words for claim C3 (refinement comparison
only): clamp(x, lo, hi) bounds x below by lo and above by hi. -/
def specClamp (x lo hi : Nat) : Nat := max lo (min hi x)

/-- The pre-order ledger of the test suite: the user holds 1000 USDC
(6 decimals) on the source chain, the resolver 2000 USDC on the
destination chain (main.spec.ts lines 98 and 112); safety deposits are
paid in native coin, of which both resolver accounts hold 1 ether. -/
def testLedger : SwapLedger :=
  { srcUserTok := 1000 * 10 ^ 6, srcResolverTok := 0, srcEscrowTok := 0,
    srcResolverNat := 10 ^ 18, srcEscrowNat := 0,
    dstUserTok := 0, dstResolverTok := 2000 * 10 ^ 6, dstEscrowTok := 0,
    dstResolverNat := 10 ^ 18, dstEscrowNat := 0 }

/-- The safety deposit of the test orders: parseEther("0.001") wei. -/
def testSafetyDeposit : Nat := 10 ^ 15

@[simp]
theorem okE_error {α : Type} (e : RError) : okE (.error e : Except RError α) = false := rfl

@[simp]
theorem okE_ok {α : Type} (a : α) : okE (.ok a : Except RError α) = true := rfl

@[simp]
theorem updMap_same {α : Type} (m : Nat → α) (k : Nat) (v : α) : updMap m k v k = v := by
  simp [updMap]

@[simp]
theorem updMap_other {α : Type} (m : Nat → α) (k k2 : Nat) (v : α) (h : k2 ≠ k) :
    updMap m k v k2 = m k2 := by
  simp [updMap, h]

/-! ## Theorems about the claims -/

/-- Claim C9: the TestEscrowFactory constructor ignores its
rescueDelaySrc argument: both rescue-delay slots passed to the
EscrowFactory base constructor equal rescueDelayDst, so two deployments
that differ only in rescueDelaySrc produce identical factory
parameters. -/
theorem claim_C9 (lop feeToken accessToken owner rescueDelaySrc rescueDelayDst : Nat) :
    (testEscrowFactoryCtor lop feeToken accessToken owner
        rescueDelaySrc rescueDelayDst).rescueDelaySrc = rescueDelayDst ∧
    (testEscrowFactoryCtor lop feeToken accessToken owner
        rescueDelaySrc rescueDelayDst).rescueDelayDst = rescueDelayDst ∧
    ∀ otherSrc, testEscrowFactoryCtor lop feeToken accessToken owner
        rescueDelaySrc rescueDelayDst =
      testEscrowFactoryCtor lop feeToken accessToken owner otherSrc rescueDelayDst :=
  ⟨rfl, rfl, fun _ => rfl⟩

/-- Claim C7: the commitment committed at time 1000 with revealDelay 300
has expireAfter 4900; at time 5000, after expiry, canReveal correctly
returns false, yet revealAndScheduleOrder on the very same commitment
still succeeds, because it never consults expireAfter.  This contradicts
the Expired state of the spec and the contract's own canReveal helper:
the code is the slip. -/
theorem claim_C7 :
    (sState1.commitments hSample).expireAfter = 4900 ∧
    (sState1.commitments hSample).revealed = false ∧
    canReveal sState1 5000 hSample = false ∧
    okE (revealAndScheduleOrder samplePrims sState1 1 5000 sampleData 7 0) = true := by
  decide

/-- Claim C2, counterexample: the commitment hSample is revealed in
sState2 (revealed = true, revealAfter = 1300), yet a second commitOrder
call with the same commitHash at time 2000 succeeds and overwrites the
record, resetting revealed to false and revealAfter to 2300.  So a
stored commitment's fields ARE overwritten by a later commitOrder call
and the revealed flag does return to false, refuting the claim as
stated. -/
theorem claim_C2_counterexample :
    (sState2.commitments hSample).revealed = true ∧
    (sState2.commitments hSample).revealAfter = 1300 ∧
    okE (commitOrder sState2 1 2000 hSample 300) = true ∧
    ((postState (commitOrder sState2 1 2000 hSample 300) sState2).commitments
        hSample).revealed = false ∧
    ((postState (commitOrder sState2 1 2000 hSample 300) sState2).commitments
        hSample).revealAfter = 2300 := by
  decide

/-- Claim C3, counterexample: revealing the commitment at time 1300 with
executionDelay = 100 stores executeAfter = 1300 + 100 % 600 + 30 = 1430,
whereas the claimed formula now + clamp(executionDelay, 30, 600) gives
1400: the code adds MIN_EXECUTION_DELAY on top of the modulus instead of
clamping. -/
theorem claim_C3_counterexample :
    okE (revealAndScheduleOrder samplePrims sState1 1 1300 sampleData 7 100) = true ∧
    ((postState (revealAndScheduleOrder samplePrims sState1 1 1300 sampleData 7 100)
        sState1).delayedOrders ohSample).executeAfter = 1430 ∧
    1300 + specClamp 100 MIN_EXECUTION_DELAY MAX_EXECUTION_DELAY = 1400 ∧
    (1430 : Nat) ≠ 1400 := by
  decide

/-- Claim C2, amended: a later commitOrder call with the SAME commitHash
does overwrite a stored commitment and resets its revealed flag (see the
counterexample); apart from that, the lifecycle is as claimed: a
successful revealAndScheduleOrder only flips the matching commitment's
revealed flag from false to true and leaves every other commitment
untouched, executeDelayedOrder never modifies the commitments mapping,
and commitOrder with a different commitHash leaves the commitment
unchanged — so the revealed flag, once true, stays true under every
operation except a repeated commitOrder on the same hash. -/
theorem claim_C2_amended (P : EvmPrims) (s : ResolverState) (h0 : Nat) :
    (∀ caller now orderData nonce executionDelay s2,
      revealAndScheduleOrder P s caller now orderData nonce executionDelay = .ok s2 →
      ((s.commitments h0).revealed = true → (s2.commitments h0).revealed = true) ∧
      (h0 ≠ P.commitKeccak orderData nonce caller →
        s2.commitments h0 = s.commitments h0) ∧
      (h0 = P.commitKeccak orderData nonce caller →
        s2.commitments h0 = { s.commitments h0 with revealed := true })) ∧
    (∀ caller now orderHash s2 call,
      executeDelayedOrder P s caller now orderHash = .ok (s2, call) →
      s2.commitments = s.commitments) ∧
    (∀ caller now ch revealDelay s2, ch ≠ h0 →
      commitOrder s caller now ch revealDelay = .ok s2 →
      s2.commitments h0 = s.commitments h0) := by
  refine ⟨?_, ?_, ?_⟩
  · intro caller now orderData nonce executionDelay s2 hok
    unfold revealAndScheduleOrder at hok
    split_ifs at hok with hA hB hC hD
    injection hok with h
    subst h
    refine ⟨?_, ?_, ?_⟩
    · intro hrev
      by_cases hk : h0 = P.commitKeccak orderData nonce caller
      · subst hk
        simp [updMap]
      · simp [updMap, hk, hrev]
    · intro hk
      simp [updMap, hk]
    · intro hk
      subst hk
      simp [updMap]
  · intro caller now orderHash s2 call hok
    unfold executeDelayedOrder at hok
    split_ifs at hok with hA hB hC
    injection hok with h
    rw [Prod.ext_iff] at h
    obtain ⟨h2, -⟩ := h
    subst h2
    rfl
  · intro caller now ch revealDelay s2 hne hok
    unfold commitOrder at hok
    split_ifs at hok with hA hB
    injection hok with h
    subst h
    show updMap s.commitments ch _ h0 = s.commitments h0
    simp only [updMap]
    rw [if_neg (fun hx => hne hx.symm)]

/-- Witness for claim C2: the amended theorem applied at the sample
trajectory: the sample reveal flips exactly the revealed flag of the
matching commitment, the sample execution leaves the commitments mapping
untouched, and a commitOrder on a different hash leaves the revealed
sample commitment unchanged. -/
theorem claim_C2_witness :
    sState2.commitments hSample =
      { sState1.commitments hSample with revealed := true } ∧
    sState3.commitments = sState2.commitments ∧
    (postState (commitOrder sState2 1 2000 (hSample + 1) 300) sState2).commitments
        hSample = sState2.commitments hSample :=
  ⟨((claim_C2_amended samplePrims sState1 hSample).1 1 1300 sampleData 7 50
      sState2 rfl).2.2 rfl,
   (claim_C2_amended samplePrims sState2 hSample).2.1 1 1380 ohSample
      sState3 callSample rfl,
   (claim_C2_amended samplePrims sState2 hSample).2.2 1 2000 (hSample + 1) 300
      (postState (commitOrder sState2 1 2000 (hSample + 1) 300) sState2)
      (by decide) rfl⟩

/-- Claim C3, amended: for every successful revealAndScheduleOrder call
at time now, the stored DelayedOrder has executeAfter = now +
(executionDelay mod MAX_EXECUTION_DELAY) + MIN_EXECUTION_DELAY — not the
claimed clamp — so the added delay always lies between 30 seconds
(inclusive) and 10 minutes 30 seconds (exclusive). -/
theorem claim_C3_amended (P : EvmPrims) (s : ResolverState) (caller now : Nat)
    (orderData : List Nat) (nonce executionDelay : Nat) (s2 : ResolverState)
    (hok : revealAndScheduleOrder P s caller now orderData nonce executionDelay = .ok s2) :
    (s2.delayedOrders (P.orderKeccak (P.decodeOrderData orderData).order
        (P.decodeOrderData orderData).r (P.decodeOrderData orderData).vs)).executeAfter =
      now + executionDelay % MAX_EXECUTION_DELAY + MIN_EXECUTION_DELAY ∧
    now + MIN_EXECUTION_DELAY ≤ (s2.delayedOrders (P.orderKeccak
        (P.decodeOrderData orderData).order (P.decodeOrderData orderData).r
        (P.decodeOrderData orderData).vs)).executeAfter ∧
    (s2.delayedOrders (P.orderKeccak (P.decodeOrderData orderData).order
        (P.decodeOrderData orderData).r (P.decodeOrderData orderData).vs)).executeAfter <
      now + MAX_EXECUTION_DELAY + MIN_EXECUTION_DELAY := by
  have hkey : (s2.delayedOrders (P.orderKeccak (P.decodeOrderData orderData).order
      (P.decodeOrderData orderData).r (P.decodeOrderData orderData).vs)).executeAfter =
      now + executionDelay % MAX_EXECUTION_DELAY + MIN_EXECUTION_DELAY := by
    unfold revealAndScheduleOrder at hok
    split_ifs at hok with hA hB hC hD
    injection hok with h
    subst h
    simp [updMap]
  have hm : executionDelay % MAX_EXECUTION_DELAY < MAX_EXECUTION_DELAY :=
    Nat.mod_lt _ (by norm_num [MAX_EXECUTION_DELAY])
  refine ⟨hkey, ?_, ?_⟩ <;> rw [hkey] <;> omega

/-- Witness for claim C3: the amended theorem at the sample reveal of
time 1300 with executionDelay 100: the stored executeAfter is
1300 + 100 % 600 + 30 = 1430 and lies in [1330, 1930). -/
theorem claim_C3_witness :
    ((postState (revealAndScheduleOrder samplePrims sState1 1 1300 sampleData 7 100)
        sState1).delayedOrders ohSample).executeAfter =
      1300 + 100 % MAX_EXECUTION_DELAY + MIN_EXECUTION_DELAY ∧
    1300 + MIN_EXECUTION_DELAY ≤ ((postState (revealAndScheduleOrder samplePrims sState1
        1 1300 sampleData 7 100) sState1).delayedOrders ohSample).executeAfter ∧
    ((postState (revealAndScheduleOrder samplePrims sState1 1 1300 sampleData 7 100)
        sState1).delayedOrders ohSample).executeAfter <
      1300 + MAX_EXECUTION_DELAY + MIN_EXECUTION_DELAY :=
  claim_C3_amended samplePrims sState1 1 1300 sampleData 7 100
    (postState (revealAndScheduleOrder samplePrims sState1 1 1300 sampleData 7 100)
      sState1) rfl

/-- Claim C5: under an owner call, executeDelayedOrder fails with
ExecutionTooEarly when the stored DelayedOrder exists (executeAfter not
zero) but the current time is before its executeAfter; on success it
calls deploySrc with exactly the stored immutables, order, r, vs,
amount, takerTraits and args, and deletes the delayedOrders entry, so
that any later call on the same orderHash fails; entries are never
created by commitOrder, and a reveal only writes the entry at its own
order hash. -/
theorem claim_C5 (P : EvmPrims) (s : ResolverState) (caller now orderHash : Nat)
    (hOwner : caller = s.owner) :
    ((s.delayedOrders orderHash).executeAfter ≠ 0 →
      now < (s.delayedOrders orderHash).executeAfter →
      executeDelayedOrder P s caller now orderHash = .error .executionTooEarly) ∧
    (∀ s2 call, executeDelayedOrder P s caller now orderHash = .ok (s2, call) →
      call = { immutables := (s.delayedOrders orderHash).immutables,
               order := (s.delayedOrders orderHash).order,
               r := (s.delayedOrders orderHash).r,
               vs := (s.delayedOrders orderHash).vs,
               amount := (s.delayedOrders orderHash).amount,
               takerTraits := (s.delayedOrders orderHash).takerTraits,
               args := (s.delayedOrders orderHash).args } ∧
      s2.delayedOrders orderHash = emptyDelayedOrder ∧
      (∀ P2 caller2 now2, okE (executeDelayedOrder P2 s2 caller2 now2 orderHash) = false)) ∧
    (∀ ch revealDelay s2, commitOrder s caller now ch revealDelay = .ok s2 →
      s2.delayedOrders = s.delayedOrders) ∧
    (∀ orderData nonce executionDelay s2,
      revealAndScheduleOrder P s caller now orderData nonce executionDelay = .ok s2 →
      ∀ k, k ≠ P.orderKeccak (P.decodeOrderData orderData).order
          (P.decodeOrderData orderData).r (P.decodeOrderData orderData).vs →
        s2.delayedOrders k = s.delayedOrders k) := by
  have hno : ¬ caller ≠ s.owner := not_not.mpr hOwner
  refine ⟨?_, ?_, ?_, ?_⟩
  · intro h1 h2
    unfold executeDelayedOrder
    rw [if_neg hno, if_neg h1, if_pos h2]
  · intro s2 call hok
    unfold executeDelayedOrder at hok
    split_ifs at hok with hA hB
    injection hok with h
    rw [Prod.ext_iff] at h
    obtain ⟨h2, h3⟩ := h
    subst h2
    subst h3
    refine ⟨rfl, by simp [updMap], ?_⟩
    intro P2 caller2 now2
    unfold executeDelayedOrder
    split_ifs with u1 u2 u3
    · rfl
    · rfl
    · rfl
    · exact absurd (by simp [updMap, emptyDelayedOrder]) u2
  · intro ch revealDelay s2 hok
    unfold commitOrder at hok
    split_ifs at hok with hA hB
    injection hok with h
    subst h
    rfl
  · intro orderData nonce executionDelay s2 hok
    unfold revealAndScheduleOrder at hok
    split_ifs at hok with hA hB hC hD
    injection hok with h
    subst h
    intro k hk
    simp [updMap, hk]

/-- Witness for claim C5: at the sample state, executing too early
(time 1000 against executeAfter 1380) fails with ExecutionTooEarly; the
successful execution at time 1380 empties the entry and any repeat call
on the same orderHash fails. -/
theorem claim_C5_witness :
    executeDelayedOrder samplePrims sState2 1 1000 ohSample =
      .error RError.executionTooEarly ∧
    sState3.delayedOrders ohSample = emptyDelayedOrder ∧
    okE (executeDelayedOrder samplePrims sState3 1 9999 ohSample) = false :=
  ⟨(claim_C5 samplePrims sState2 1 1000 ohSample rfl).1 (by decide) (by decide),
   ((claim_C5 samplePrims sState2 1 1380 ohSample rfl).2.1 sState3 callSample rfl).2.1,
   ((claim_C5 samplePrims sState2 1 1380 ohSample rfl).2.1 sState3 callSample
      rfl).2.2 samplePrims 1 9999⟩

/-- Claim C6: commitOrder succeeds exactly when the caller is the owner
and the reveal delay lies between MIN_COMMIT_DELAY (5 minutes) and
MAX_COMMIT_DELAY (1 hour) inclusive; on success it stores a commitment
with revealAfter = now + revealDelay, expireAfter = revealAfter +
MAX_COMMIT_DELAY, committer = caller, revealed = false and
executed = false. -/
theorem claim_C6 (s : ResolverState) (caller now commitHash revealDelay : Nat) :
    (okE (commitOrder s caller now commitHash revealDelay) = true ↔
      (caller = s.owner ∧ MIN_COMMIT_DELAY ≤ revealDelay ∧
        revealDelay ≤ MAX_COMMIT_DELAY)) ∧
    (∀ s2, commitOrder s caller now commitHash revealDelay = .ok s2 →
      s2.commitments commitHash =
        { commitHash := commitHash, revealAfter := now + revealDelay,
          expireAfter := now + revealDelay + MAX_COMMIT_DELAY, committer := caller,
          revealed := false, executed := false }) ∧
    MIN_COMMIT_DELAY = 5 * 60 ∧ MAX_COMMIT_DELAY = 60 * 60 := by
  refine ⟨?_, ?_, rfl, rfl⟩
  · unfold commitOrder
    split_ifs with h1 h2
    · simp only [okE_error, Bool.false_eq_true, false_iff]
      intro h
      exact h1 h.1
    · simp only [okE_ok, true_iff]
      exact ⟨not_not.mp h1, h2.1, h2.2⟩
    · simp only [okE_error, Bool.false_eq_true, false_iff]
      intro h
      exact h2 ⟨h.2.1, h.2.2⟩
  · intro s2 hok
    unfold commitOrder at hok
    split_ifs at hok with h1 h2
    · injection hok with h
      subst h
      simp [updMap]

/-- Claim C1: under an owner call, revealAndScheduleOrder succeeds
exactly when the recomputed hash keccak256(orderData, nonce, caller) —
which agrees with the pure generateCommitHash(orderData, nonce, caller)
— addresses a stored commitment (commitHash not zero) whose revealed
flag is false and whose revealAfter has passed; it fails with
CommitmentNotFound when nothing is stored at the recomputed hash, with
TooEarlyToReveal when called before revealAfter, and with
InvalidCommitment when the matching commitment is already revealed; a
failing call reverts, so the caller-visible commitments and
delayedOrders mappings are unchanged. -/
theorem claim_C1 (P : EvmPrims) (s : ResolverState) (caller now : Nat)
    (orderData : List Nat) (nonce executionDelay : Nat) (hOwner : caller = s.owner) :
    (P.commitKeccak orderData nonce caller =
      generateCommitHash P orderData nonce caller) ∧
    (okE (revealAndScheduleOrder P s caller now orderData nonce executionDelay) = true ↔
      ((s.commitments (generateCommitHash P orderData nonce caller)).commitHash ≠ 0 ∧
       (s.commitments (generateCommitHash P orderData nonce caller)).revealAfter ≤ now ∧
       (s.commitments (generateCommitHash P orderData nonce caller)).revealed = false)) ∧
    (revealAndScheduleOrder P s caller now orderData nonce executionDelay =
        .error .commitmentNotFound ↔
      (s.commitments (generateCommitHash P orderData nonce caller)).commitHash = 0) ∧
    (revealAndScheduleOrder P s caller now orderData nonce executionDelay =
        .error .tooEarlyToReveal ↔
      ((s.commitments (generateCommitHash P orderData nonce caller)).commitHash ≠ 0 ∧
        now < (s.commitments (generateCommitHash P orderData nonce caller)).revealAfter)) ∧
    (revealAndScheduleOrder P s caller now orderData nonce executionDelay =
        .error .invalidCommitment ↔
      ((s.commitments (generateCommitHash P orderData nonce caller)).commitHash ≠ 0 ∧
        (s.commitments (generateCommitHash P orderData nonce caller)).revealAfter ≤ now ∧
        (s.commitments (generateCommitHash P orderData nonce caller)).revealed = true)) ∧
    (∀ e, revealAndScheduleOrder P s caller now orderData nonce executionDelay = .error e →
      (postState (revealAndScheduleOrder P s caller now orderData nonce executionDelay)
          s).commitments = s.commitments ∧
      (postState (revealAndScheduleOrder P s caller now orderData nonce executionDelay)
          s).delayedOrders = s.delayedOrders) := by
  have hno : ¬ caller ≠ s.owner := not_not.mpr hOwner
  unfold revealAndScheduleOrder generateCommitHash
  rw [if_neg hno]
  split_ifs with h1 h2 h3
  · refine ⟨rfl, by simp [h1], by simp [h1], by simp [h1], by simp [h1], ?_⟩
    intro e _
    exact ⟨rfl, rfl⟩
  · refine ⟨rfl, by simp [h1, not_le.mpr h2], by simp [h1], by simp [h1, h2],
      by simp [h1, not_le.mpr h2], ?_⟩
    intro e _
    exact ⟨rfl, rfl⟩
  · refine ⟨rfl, by simp [h1, h3], by simp [h1], by simp [h1, not_lt.mp h2],
      by simp [h1, not_lt.mp h2, h3], ?_⟩
    intro e _
    exact ⟨rfl, rfl⟩
  · rw [Bool.not_eq_true] at h3
    refine ⟨rfl, by simp [h1, not_lt.mp h2, h3], by simp [h1], by simp [h1, not_lt.mp h2],
      by simp [h1, h3], ?_⟩
    intro e he
    exact absurd he (by simp)

/-- Witness for claim C1: the theorem applied at the sample state.  The
reveal of sState2 succeeds because the sampleData commitment is in
place, unrevealed, and past its reveal time; on the empty state the same
call fails with CommitmentNotFound. -/
theorem claim_C1_witness :
    okE (revealAndScheduleOrder samplePrims sState1 1 1300 sampleData 7 50) = true ∧
    revealAndScheduleOrder samplePrims sState0 1 1300 sampleData 7 50 =
      .error RError.commitmentNotFound :=
  ⟨((claim_C1 samplePrims sState1 1 1300 sampleData 7 50 rfl).2.1).mpr (by decide),
   ((claim_C1 samplePrims sState0 1 1300 sampleData 7 50 rfl).2.2.1).mpr (by decide)⟩

/-- Claim C4 (spec-modelled ledger): if no secret is ever revealed and
both cancellation timelocks have elapsed, cancelling the destination
escrow and then the source escrow restores the exact pre-order balances
on both chains: for any initial ledger with sufficient funds, the run
deploySrc, deployDst, cancelDst, cancelSrc returns exactly the initial
ledger — zero net transfer, safety deposits back with the resolver that
posted them. -/
theorem claim_C4 (L0 : SwapLedger) (fillAmount dstAmount ssd dsd
    deployedAtSrc deployedAtDst cSrcOff cDstOff nowSrc nowDst : Nat)
    (hFill : fillAmount ≤ L0.srcUserTok) (hSsd : ssd ≤ L0.srcResolverNat)
    (hDstAmt : dstAmount ≤ L0.dstResolverTok) (hDsd : dsd ≤ L0.dstResolverNat)
    (hCd : deployedAtDst + cDstOff ≤ nowDst) (hCs : deployedAtSrc + cSrcOff ≤ nowSrc) :
    ((deploySrcL L0 fillAmount ssd).bind fun L1 =>
      (deployDstL L1 dstAmount dsd).bind fun L2 =>
      (cancelDstL L2 dstAmount dsd deployedAtDst cDstOff nowDst).bind fun L3 =>
      cancelSrcL L3 fillAmount ssd deployedAtSrc cSrcOff nowSrc) = some L0 := by
  obtain ⟨su, sr, se, srn, sen, du, dr, de, drn, den⟩ := L0
  dsimp only at hFill hSsd hDstAmt hDsd
  unfold deploySrcL deployDstL cancelDstL cancelSrcL
  rw [if_pos ⟨hFill, hSsd⟩]
  simp only [Option.some_bind]
  rw [if_pos ⟨hDstAmt, hDsd⟩]
  simp only [Option.some_bind]
  rw [if_pos ⟨hCd, Nat.le_add_left dstAmount de, Nat.le_add_left dsd den⟩]
  simp only [Option.some_bind]
  rw [if_pos ⟨hCs, Nat.le_add_left fillAmount se, Nat.le_add_left ssd sen⟩]
  simp only [Option.some.injEq, SwapLedger.mk.injEq]
  refine ⟨by omega, trivial, by omega, by omega, by omega, trivial, by omega, by omega,
    by omega, by omega⟩

/-- Witness for claim C4: the theorem at the test-suite ledger, a full
fill of 100 USDC against 99 USDC, 0.001-ether deposits, and both cancel
calls made at time 125 after cancellation offsets 121 and 101 (the
timelocks of the cancellation test). -/
theorem claim_C4_witness :
    (100 * 10 ^ 6 ≤ testLedger.srcUserTok ∧
     testSafetyDeposit ≤ testLedger.srcResolverNat ∧
     99 * 10 ^ 6 ≤ testLedger.dstResolverTok ∧
     testSafetyDeposit ≤ testLedger.dstResolverNat ∧
     0 + 101 ≤ 125 ∧ 0 + 121 ≤ 125) ∧
    ((deploySrcL testLedger (100 * 10 ^ 6) testSafetyDeposit).bind fun L1 =>
      (deployDstL L1 (99 * 10 ^ 6) testSafetyDeposit).bind fun L2 =>
      (cancelDstL L2 (99 * 10 ^ 6) testSafetyDeposit 0 101 125).bind fun L3 =>
      cancelSrcL L3 (100 * 10 ^ 6) testSafetyDeposit 0 121 125) = some testLedger :=
  ⟨⟨by decide, by decide, by decide, by decide, by decide, by decide⟩,
   claim_C4 testLedger (100 * 10 ^ 6) (99 * 10 ^ 6) testSafetyDeposit testSafetyDeposit
     0 0 121 101 125 125 (by decide) (by decide) (by decide) (by decide)
     (by decide) (by decide)⟩

/-- Claim C8: for the multi-fill test order with makingAmount = 100e6
and takingAmount = 99e6, the 50 percent fill of fillAmount = 50e6 gives
dstAmount = takingAmount * fillAmount / makingAmount = 49.5e6 exactly
(the truncating integer division loses nothing here: the remainder is
zero), and the swap run on the spec-modelled ledger moves exactly
49500000 destination units to the user and 50e6 source units to the
resolver, with both safety deposits returned. -/
theorem claim_C8 :
    dstAmountOf testMakingAmount testTakingAmount fill50Amount = 49500000 ∧
    testTakingAmount * fill50Amount % testMakingAmount = 0 ∧
    fill50Amount = 50 * 10 ^ 6 ∧
    ((deploySrcL testLedger fill50Amount testSafetyDeposit).bind fun L1 =>
      (deployDstL L1 (dstAmountOf testMakingAmount testTakingAmount fill50Amount)
        testSafetyDeposit).bind fun L2 =>
      (withdrawDstL L2 (dstAmountOf testMakingAmount testTakingAmount fill50Amount)
        testSafetyDeposit 0 10 101 50 true).bind fun L3 =>
      withdrawSrcL L3 fill50Amount testSafetyDeposit 0 10 121 60 true) =
      some { testLedger with
        srcUserTok := testLedger.srcUserTok - fill50Amount,
        srcResolverTok := testLedger.srcResolverTok + fill50Amount,
        dstUserTok := testLedger.dstUserTok + 49500000,
        dstResolverTok := testLedger.dstResolverTok - 49500000 } := by
  decide

/-- Claim C10: under an owner call, obfuscateAmount succeeds and appends
exactly one ObfuscatedAmount record to tokenObfuscation[token] whose
realAmount field equals the realAmount argument unchanged and whose
noiseLevel lies in [MIN_NOISE_PERCENTAGE, MAX_NOISE_PERCENTAGE) =
[50, 300); other tokens' histories are untouched; and it never
underflows: in the subtracting branch, when the noise amount reaches or
exceeds the real amount the function returns the noise amount itself,
and otherwise it returns realAmount - noiseAmount, which equals the
exact integer difference since noiseAmount < realAmount there. -/
theorem claim_C10 (keccakU : Nat → Nat → Nat → Nat → Nat) (s : UtilsState)
    (caller now token realAmount : Nat) (hOwner : caller = s.owner) :
    ∃ s2 obf,
      obfuscateAmount keccakU s caller now token realAmount = .ok (s2, obf) ∧
      s2.tokenObfuscation token = s.tokenObfuscation token ++
        [{ realAmount := realAmount, displayAmount := obf,
           noiseLevel := noisePercentageOf (keccakU now token realAmount caller),
           timestamp := now }] ∧
      (∀ t2, t2 ≠ token → s2.tokenObfuscation t2 = s.tokenObfuscation t2) ∧
      MIN_NOISE_PERCENTAGE ≤ noisePercentageOf (keccakU now token realAmount caller) ∧
      noisePercentageOf (keccakU now token realAmount caller) < MAX_NOISE_PERCENTAGE ∧
      (keccakU now token realAmount caller % 2 ≠ 0 →
        realAmount ≤ noiseAmountOf realAmount (keccakU now token realAmount caller) →
        obf = noiseAmountOf realAmount (keccakU now token realAmount caller)) ∧
      (keccakU now token realAmount caller % 2 ≠ 0 →
        noiseAmountOf realAmount (keccakU now token realAmount caller) < realAmount →
        obf = realAmount - noiseAmountOf realAmount (keccakU now token realAmount caller) ∧
        (obf : Int) = (realAmount : Int) -
          (noiseAmountOf realAmount (keccakU now token realAmount caller) : Int)) := by
  have hno : ¬ caller ≠ s.owner := not_not.mpr hOwner
  unfold obfuscateAmount
  rw [if_neg hno]
  refine ⟨_, _, rfl, by simp [updMap], ?_, ?_, ?_, ?_, ?_⟩
  · intro t2 h
    simp [updMap, h]
  · simp [noisePercentageOf]
  · have hm : keccakU now token realAmount caller %
        (MAX_NOISE_PERCENTAGE - MIN_NOISE_PERCENTAGE) <
        MAX_NOISE_PERCENTAGE - MIN_NOISE_PERCENTAGE :=
      Nat.mod_lt _ (by norm_num [MAX_NOISE_PERCENTAGE, MIN_NOISE_PERCENTAGE])
    simp only [noisePercentageOf, MAX_NOISE_PERCENTAGE, MIN_NOISE_PERCENTAGE] at *
    omega
  · intro hodd hge
    rw [if_neg hodd, if_neg (not_lt.mpr hge)]
  · intro hodd hlt
    rw [if_neg hodd, if_pos hlt]
    exact ⟨rfl, by omega⟩

/-- Witness for claim C10: the theorem at the fresh PrivacyUtils state
with a sum stand-in for keccak, owner caller 1, time 10, token 2 and
real amount 1000. -/
theorem claim_C10_witness :
    ∃ s2 obf,
      obfuscateAmount (fun a b c d => a + b + c + d) uState0 1 10 2 1000 = .ok (s2, obf) ∧
      s2.tokenObfuscation 2 = uState0.tokenObfuscation 2 ++
        [{ realAmount := 1000, displayAmount := obf,
           noiseLevel := noisePercentageOf ((fun a b c d => a + b + c + d) 10 2 1000 1),
           timestamp := 10 }] ∧
      (∀ t2, t2 ≠ 2 → s2.tokenObfuscation t2 = uState0.tokenObfuscation t2) ∧
      MIN_NOISE_PERCENTAGE ≤ noisePercentageOf ((fun a b c d => a + b + c + d) 10 2 1000 1) ∧
      noisePercentageOf ((fun a b c d => a + b + c + d) 10 2 1000 1) < MAX_NOISE_PERCENTAGE ∧
      ((fun a b c d => a + b + c + d) 10 2 1000 1 % 2 ≠ 0 →
        1000 ≤ noiseAmountOf 1000 ((fun a b c d => a + b + c + d) 10 2 1000 1) →
        obf = noiseAmountOf 1000 ((fun a b c d => a + b + c + d) 10 2 1000 1)) ∧
      ((fun a b c d => a + b + c + d) 10 2 1000 1 % 2 ≠ 0 →
        noiseAmountOf 1000 ((fun a b c d => a + b + c + d) 10 2 1000 1) < 1000 →
        obf = 1000 - noiseAmountOf 1000 ((fun a b c d => a + b + c + d) 10 2 1000 1) ∧
        (obf : Int) = (1000 : Int) -
          (noiseAmountOf 1000 ((fun a b c d => a + b + c + d) 10 2 1000 1) : Int)) :=
  claim_C10 (fun a b c d => a + b + c + d) uState0 1 10 2 1000 rfl

/-- Witness for claim C6: the sample commit at time 1000 with the
minimum delay succeeds and stores exactly the expected record, and the
commitOrder call defining sState1 is that very call. -/
theorem claim_C6_witness :
    commitOrder sState0 1 1000 hSample 300 = .ok sState1 ∧
    sState1.commitments hSample =
      { commitHash := hSample, revealAfter := 1000 + 300,
        expireAfter := 1000 + 300 + MAX_COMMIT_DELAY, committer := 1,
        revealed := false, executed := false } :=
  ⟨rfl, (claim_C6 sState0 1 1000 hSample 300).2.1 sState1 rfl⟩

end CCPS
